import Mathlib

/-!
Verification development for the IOTSERVER gateway (`app.py`): a FastAPI
WebSocket relay that authenticates IoT devices against an external backend,
keeps global registries `unauthenticated`, `devices` and `last_ping`,
forwards controller commands to device sockets and sweeps dead devices by
heartbeat timeout.

Python dicts are embedded as association lists with the operations below.
`dictSet` erases the key first and appends, so key sets and lookups agree
with Python dict assignment on every input; iteration order (which Python
preserves on reassignment, unlike the append here) is never relied upon by
any statement in this file.  WebSocket handles are identified by a `Nat`
socket id; transport sends, closes and upstream callbacks to Server A
(`notify_server_a`) are recorded as an explicit effect list.
-/

namespace IotServer

/-- Lookup in an association list, as Python `d.get(k)` / `d[k]`. -/
def dictGet {V : Type} : List (String × V) → String → Option V
  | [], _ => none
  | (k, v) :: rest, k' => if k = k' then some v else dictGet rest k'

/-- Removal, as Python `d.pop(k, None)` (on unique-key lists). -/
def dictErase {V : Type} : List (String × V) → String → List (String × V)
  | [], _ => []
  | (k, v) :: rest, k' => if k = k' then dictErase rest k' else (k, v) :: dictErase rest k'

/-- Assignment, as Python `d[k] = v`: at most one binding per key survives. -/
def dictSet {V : Type} (m : List (String × V)) (k : String) (v : V) : List (String × V) :=
  dictErase m k ++ [(k, v)]

/-- The key list, as Python `list(d.keys())`. -/
def dictKeys {V : Type} (m : List (String × V)) : List String :=
  m.map Prod.fst

theorem dictGet_erase_self {V : Type} (m : List (String × V)) (k : String) :
    dictGet (dictErase m k) k = none := by
  induction m with
  | nil => rfl
  | cons p rest ih =>
    obtain ⟨k', v⟩ := p
    by_cases h : k' = k
    · simp [dictErase, h, ih]
    · simp [dictErase, dictGet, h, ih]

theorem dictGet_erase_ne {V : Type} (m : List (String × V)) {k k' : String} (h : k' ≠ k) :
    dictGet (dictErase m k) k' = dictGet m k' := by
  induction m with
  | nil => rfl
  | cons p rest ih =>
    obtain ⟨a, v⟩ := p
    by_cases ha : a = k
    · have hak' : ¬ a = k' := fun hh => h (hh ▸ ha)
      rw [dictErase, if_pos ha, dictGet, if_neg hak', ih]
    · simp only [dictErase, if_neg ha, dictGet]
      by_cases ha' : a = k'
      · simp [ha']
      · simp [ha', ih]

theorem dictGet_append {V : Type} (m m' : List (String × V)) (k : String) :
    dictGet (m ++ m') k = ((dictGet m k).rec (dictGet m' k) (fun v => some v) : Option V) := by
  induction m with
  | nil => simp [dictGet]
  | cons p rest ih =>
    obtain ⟨a, v⟩ := p
    by_cases ha : a = k
    · simp [dictGet, ha]
    · simp [dictGet, ha, ih]

theorem dictGet_set_self {V : Type} (m : List (String × V)) (k : String) (v : V) :
    dictGet (dictSet m k v) k = some v := by
  simp [dictSet, dictGet_append, dictGet_erase_self, dictGet]

theorem dictGet_set_ne {V : Type} (m : List (String × V)) {k k' : String} (v : V)
    (h : k' ≠ k) : dictGet (dictSet m k v) k' = dictGet m k' := by
  rw [dictSet, dictGet_append, dictGet_erase_ne m h]
  cases hg : dictGet m k' with
  | none =>
    have hkk' : ¬ k = k' := fun hh => h hh.symm
    simp only [dictGet, if_neg hkk']
  | some w => simp

theorem mem_dictKeys_of_get {V : Type} {m : List (String × V)} {k : String} {v : V}
    (h : dictGet m k = some v) : k ∈ dictKeys m := by
  induction m with
  | nil => simp [dictGet] at h
  | cons p rest ih =>
    obtain ⟨a, w⟩ := p
    by_cases ha : a = k
    · simp [dictKeys, ha]
    · simp only [dictGet, if_neg ha] at h
      simp [dictKeys] at ih ⊢
      exact Or.inr (ih h)

theorem not_mem_dictKeys_erase {V : Type} (m : List (String × V)) (k : String) :
    k ∉ dictKeys (dictErase m k) := by
  induction m with
  | nil => simp [dictErase, dictKeys]
  | cons p rest ih =>
    obtain ⟨a, v⟩ := p
    by_cases ha : a = k
    · simpa [dictErase, ha] using ih
    · simp [dictErase, ha, dictKeys] at ih ⊢
      exact ⟨fun hh => ha hh.symm, ih⟩

theorem dictKeys_erase_sublist {V : Type} (m : List (String × V)) (k : String) :
    (dictKeys (dictErase m k)).Sublist (dictKeys m) := by
  induction m with
  | nil => simp [dictErase, dictKeys]
  | cons p rest ih =>
    obtain ⟨a, v⟩ := p
    by_cases ha : a = k
    · simpa [dictErase, ha, dictKeys] using ih.cons a
    · simpa [dictErase, ha, dictKeys] using ih.cons₂ a

theorem nodup_dictKeys_erase {V : Type} {m : List (String × V)} (k : String)
    (h : (dictKeys m).Nodup) : (dictKeys (dictErase m k)).Nodup :=
  (dictKeys_erase_sublist m k).nodup h

theorem nodup_dictKeys_set {V : Type} {m : List (String × V)} (k : String) (v : V)
    (h : (dictKeys m).Nodup) : (dictKeys (dictSet m k v)).Nodup := by
  have hkeys : dictKeys (dictSet m k v) = dictKeys (dictErase m k) ++ [k] := by
    simp [dictSet, dictKeys]
  rw [hkeys]
  refine List.Nodup.append (nodup_dictKeys_erase k h) (by simp) ?_
  intro x hx hx'
  simp at hx'
  exact not_mem_dictKeys_erase m k (hx' ▸ hx)

/-- `PING_TIMEOUT = 180` (3 minutes), from `app.py`. -/
def PING_TIMEOUT : Nat := 180

/-- `AUTH_GRACE_PERIOD = 60` (1 minute), from `app.py`. -/
def AUTH_GRACE_PERIOD : Nat := 60

/-- Frames the server writes to a WebSocket (`send_text` payloads).
`ack` and `errorMsg` belong to the observer endpoint, which is modelled
from the spec (see `routeObserverCommand`). -/
inductive OutFrame : Type
  | command (action : String)
  | pong
  | authFailed (reason : String)
  | ack (deviceId : String)
  | errorMsg (message : String)
  deriving DecidableEq

/-- Payload attached to a `notify_server_a` call: the `{"reason": r}` dict
on rejections, or the raw status frame forwarded on `"STATUS"`. -/
inductive NotifyPayload : Type
  | reason (r : String)
  | statusFrame (body : String)
  deriving DecidableEq

/-- Observable side effects of the handlers: transport sends, transport
closes (`close code` is `none` for the bare `ws.close()` in the sweep) and
upstream callbacks `notify_server_a(deviceName, status, payload)`. -/
inductive Effect : Type
  | send (ws : Nat) (frame : OutFrame)
  | close (ws : Nat) (code : Option Nat)
  | notify (deviceName : String) (status : String) (payload : Option NotifyPayload)
  deriving DecidableEq

/-- The three module-level pools of `app.py`:
`unauthenticated : deviceId -> socket`, `devices : deviceName -> socket`,
`last_ping : deviceName -> last ping time`. -/
structure Pools : Type where
  unauthenticated : List (String × Nat)
  devices : List (String × Nat)
  last_ping : List (String × Nat)
  deriving DecidableEq

/-- Per-connection locals of the `ws_device` handler: the query parameter
`deviceId`, the socket, `auth_deadline = connect time + AUTH_GRACE_PERIOD`,
and `deviceName` (`None` until authenticated). -/
structure ConnState : Type where
  deviceId : String
  ws : Nat
  authDeadline : Nat
  deviceName : Option String
  deriving DecidableEq

/-- The `data` object of a successful backend reply:
`backend["data"]["device_name"]` and `backend["data"].get("hard_switch_enabled")`. -/
structure AuthData : Type where
  device_name : String
  hard_switch_enabled : Bool
  deriving DecidableEq

/-- A parsed HTTP-200 backend body: `success`, optional `message`, and the
`data` object (`none` models a missing `"data"` key, whose access raises and
is caught by the handler's internal-error branch). -/
structure BackendJson : Type where
  success : Bool
  message : Option String
  data : Option AuthData
  deriving DecidableEq

/-- Outcome of the `requests.post` to the identity backend: HTTP 200 with a
parsed JSON body, a non-200 status code, or a raised exception. -/
inductive BackendResp : Type
  | ok (backend : BackendJson)
  | httpError (code : Nat)
  | exn (msg : String)
  deriving DecidableEq

/-- Inbound frames of the device loop, classified by `data.get("type")`. -/
inductive InFrame : Type
  | auth (username password : String)
  | ping
  | status (body : String)
  | other
  deriving DecidableEq

/-- Connection accept: `unauthenticated[deviceId] = websocket` and
`auth_deadline = time.time() + AUTH_GRACE_PERIOD` (`app.py` lines 29-34). -/
def ws_device_accept (now : Nat) (st : Pools) (deviceId : String) (ws : Nat) :
    Pools × ConnState :=
  ({ st with unauthenticated := dictSet st.unauthenticated deviceId ws },
   { deviceId := deviceId, ws := ws, authDeadline := now + AUTH_GRACE_PERIOD,
     deviceName := none })

/-- One pass of the frame dispatch in the `ws_device` receive loop
(`app.py` lines 42-96), before the grace-period check.  Returns the new
pools, the connection state (only `deviceName` ever changes), the effects
in emission order, and whether the handler returned. -/
def ws_device_handle_frame (now : Nat) (backend : String → String → BackendResp)
    (st : Pools) (c : ConnState) (frame : InFrame) :
    Pools × ConnState × List Effect × Bool :=
  match frame with
  | .auth u p =>
    match backend u p with
    | .ok bj =>
      if bj.success then
        match bj.data with
        | some d =>
          let st' : Pools :=
            { unauthenticated := dictErase st.unauthenticated c.deviceId
              devices := dictSet st.devices d.device_name c.ws
              last_ping := dictSet st.last_ping d.device_name now }
          let initialCommand := if d.hard_switch_enabled then "HARD_ON" else "HARD_OFF"
          (st', { c with deviceName := some d.device_name },
           [.send c.ws (.command initialCommand),
            .notify d.device_name "CONNECTED" none], false)
        | none =>
          let reason := "Internal error: KeyError"
          (st, c, [.send c.ws (.authFailed reason), .close c.ws (some 1011),
                   .notify c.deviceId "REJECTED" (some (.reason reason))], true)
      else
        let reason := (bj.message).getD "Auth failed"
        (st, c, [.send c.ws (.authFailed reason), .close c.ws (some 4002),
                 .notify c.deviceId "REJECTED" (some (.reason reason))], true)
    | .httpError code =>
      let reason := "Backend error HTTP " ++ toString code
      (st, c, [.send c.ws (.authFailed reason), .close c.ws (some 4001),
               .notify c.deviceId "REJECTED" (some (.reason reason))], true)
    | .exn msg =>
      let reason := "Internal error: " ++ msg
      (st, c, [.send c.ws (.authFailed reason), .close c.ws (some 1011),
               .notify c.deviceId "REJECTED" (some (.reason reason))], true)
  | .ping =>
    match c.deviceName with
    | some n =>
      if (dictGet st.devices n).isSome then
        ({ st with last_ping := dictSet st.last_ping n now }, c,
         [.send c.ws .pong], false)
      else (st, c, [], false)
    | none => (st, c, [], false)
  | .status body =>
    match c.deviceName with
    | some n =>
      if (dictGet st.devices n).isSome then
        (st, c, [.notify n "STATUS" (some (.statusFrame body))], false)
      else (st, c, [], false)
    | none => (st, c, [], false)
  | .other => (st, c, [], false)

/-- The grace-period check run after every frame (`app.py` lines 99-104):
`if deviceId in unauthenticated and time.time() > auth_deadline`. -/
def ws_device_timeout_check (now : Nat) (st : Pools) (c : ConnState) :
    Pools × List Effect × Bool :=
  if (dictGet st.unauthenticated c.deviceId).isSome ∧ now > c.authDeadline then
    ({ st with unauthenticated := dictErase st.unauthenticated c.deviceId },
     [.send c.ws (.authFailed "Timeout: no auth within 60s"),
      .close c.ws (some 4003),
      .notify c.deviceId "REJECTED" (some (.reason "Timeout"))], true)
  else (st, [], false)

/-- One full iteration of the `ws_device` receive loop on one inbound frame:
frame dispatch, then (unless the dispatch returned) the grace-period check.
`ws_device_plain` (lines 114-194) runs the identical logic and differs only
in logging, so this models both endpoints. -/
def ws_device_step (now : Nat) (backend : String → String → BackendResp)
    (st : Pools) (c : ConnState) (frame : InFrame) :
    Pools × ConnState × List Effect × Bool :=
  let h := ws_device_handle_frame now backend st c frame
  if h.2.2.2 then (h.1, h.2.1, h.2.2.1, true)
  else
    let t := ws_device_timeout_check now h.1 h.2.1
    (t.1, h.2.1, h.2.2.1 ++ t.2.1, t.2.2)

/-- The `WebSocketDisconnect` handler (`app.py` lines 106-112): drop the
pending entry, and if authenticated (`deviceName` truthy, i.e. non-empty,
and registered) drop both registry entries and notify `"DISCONNECTED"`. -/
def ws_device_disconnect (st : Pools) (c : ConnState) : Pools × List Effect :=
  let st1 := { st with unauthenticated := dictErase st.unauthenticated c.deviceId }
  match c.deviceName with
  | some n =>
    if n ≠ "" ∧ (dictGet st1.devices n).isSome then
      ({ st1 with devices := dictErase st1.devices n,
                  last_ping := dictErase st1.last_ping n },
       [.notify n "DISCONNECTED" none])
    else (st1, [])
  | none => (st1, [])

/-- A single-target result dict `{"status": ..., "message": ...}`. -/
structure SingleResult : Type where
  status : String
  message : String
  deriving DecidableEq

/-- An ASCII apostrophe, kept out of string literals. -/
def squote : String := String.singleton (Char.ofNat 39)

/-- The success message of `send_command_to_device`. -/
def okMessage (command deviceName : String) : String :=
  "Command " ++ squote ++ command ++ squote ++ " sent to " ++ deviceName ++ "."

/-- `send_command_to_device` (`app.py` lines 226-238).  `sendOk ws` tells
whether `ws.send_text` succeeds or raises on that socket. -/
def send_command_to_device (sendOk : Nat → Bool) (st : Pools)
    (deviceName command : String) : Pools × SingleResult × List Effect :=
  match dictGet st.devices deviceName with
  | some ws =>
    if sendOk ws then
      (st, ⟨"ok", okMessage command deviceName⟩,
       [.send ws (.command command)])
    else
      ({ st with devices := dictErase st.devices deviceName,
                 last_ping := dictErase st.last_ping deviceName },
       ⟨"error", "Device " ++ deviceName ++ " not connected (socket closed)."⟩, [])
  | none =>
    (st, ⟨"error", "Device " ++ deviceName ++ " not connected."⟩, [])

/-- The `target` of a `/command` body: `data.get("deviceName") or
data.get("deviceId")` — absent, a single string, or a JSON array. -/
inductive Target : Type
  | absent
  | single (name : String)
  | list (names : List String)
  deriving DecidableEq

/-- Python truthiness of the target (`if not target`): `None`, `""` and
`[]` are all falsy. -/
def targetTruthy : Target → Bool
  | .absent => false
  | .single n => n ≠ ""
  | .list l => l ≠ []

/-- The JSON value returned by `/command`: a single result dict or the
`{"status": "multi", "results": ...}` shape. -/
inductive CmdResponse : Type
  | single (r : SingleResult)
  | multi (results : List (String × SingleResult))
  deriving DecidableEq

/-- The `for dev in target` loop of `receive_command`: threads the pools
through `send_command_to_device`, fills `results[dev]`, and accumulates the
emitted effects. -/
def commandLoop (sendOk : Nat → Bool) (command : String) :
    List String → Pools → List (String × SingleResult) → List Effect →
    Pools × List (String × SingleResult) × List Effect
  | [], st, results, effs => (st, results, effs)
  | dev :: rest, st, results, effs =>
    let r := send_command_to_device sendOk st dev command
    commandLoop sendOk command rest r.1 (dictSet results dev r.2.1) (effs ++ r.2.2)

/-- `receive_command` (`app.py` lines 206-224): falsy target → the
`Missing deviceName` error; list target → per-target loop with a `"multi"`
result; single target → one `send_command_to_device` call. -/
def receive_command (sendOk : Nat → Bool) (st : Pools) (command : String)
    (target : Target) : Pools × CmdResponse × List Effect :=
  if targetTruthy target = false then
    (st, .single ⟨"error", "Missing deviceName"⟩, [])
  else
    match target with
    | .absent => (st, .single ⟨"error", "Missing deviceName"⟩, [])
    | .list names =>
      let l := commandLoop sendOk command names st [] []
      (l.1, .multi l.2.1, l.2.2)
    | .single n =>
      let r := send_command_to_device sendOk st n command
      (r.1, .single r.2.1, r.2.2)

/-- The body of one sweep over the snapshot `list(last_ping.keys())`
(`app.py` lines 255-266): each expired device is popped from both maps, its
socket closed (the bare `ws.close()`), and `"DISCONNECTED"` notified. -/
def monitor_pings_aux (now : Nat) : List String → Pools → Pools × List Effect
  | [], st => (st, [])
  | name :: rest, st =>
    match dictGet st.last_ping name with
    | some lp =>
      if now > lp + PING_TIMEOUT then
        let ws := dictGet st.devices name
        let st' : Pools :=
          { st with devices := dictErase st.devices name,
                    last_ping := dictErase st.last_ping name }
        let effs := (match ws with
          | some w => [Effect.close w none]
          | none => []) ++ [Effect.notify name "DISCONNECTED" none]
        let r := monitor_pings_aux now rest st'
        (r.1, effs ++ r.2)
      else monitor_pings_aux now rest st
    | none => monitor_pings_aux now rest st

/-- One cycle of the `check_loop` background task started by
`monitor_pings` (`app.py` lines 251-268). -/
def monitor_pings_once (now : Nat) (st : Pools) : Pools × List Effect :=
  monitor_pings_aux now (dictKeys st.last_ping) st

/-- Modelled from the spec: `src/app.py` contains no observer endpoint, so
`routeObserverCommand` of spec §4.4 is embedded from its words — look up
the target device; if registered, forward the command frame and send the
issuing observer `{type:"ack", deviceId}`; if absent, send the observer
exactly `{type:"error", message:"device offline"}` and nothing else. -/
def routeObserverCommand (st : Pools) (obsWs : Nat) (targetId : String)
    (command : String) : Pools × List Effect :=
  match dictGet st.devices targetId with
  | some ws =>
    (st, [.send ws (.command command), .send obsWs (.ack targetId)])
  | none =>
    (st, [.send obsWs (.errorMsg "device offline")])

/-- The implicit registry/heartbeat consistency invariant: `devices` and
`last_ping` always hold exactly the same device names. -/
def PoolsConsistent (st : Pools) : Prop :=
  ∀ n : String, (dictGet st.devices n).isSome ↔ (dictGet st.last_ping n).isSome

theorem dictGet_set_cases {V : Type} (m : List (String × V)) (k k' : String) (v : V) :
    dictGet (dictSet m k v) k' = if k' = k then some v else dictGet m k' := by
  by_cases h : k' = k
  · subst h; simp [dictGet_set_self]
  · simp [dictGet_set_ne m v h, h]

theorem dictGet_erase_cases {V : Type} (m : List (String × V)) (k k' : String) :
    dictGet (dictErase m k) k' = if k' = k then none else dictGet m k' := by
  by_cases h : k' = k
  · subst h; simp [dictGet_erase_self]
  · simp [dictGet_erase_ne m h, h]

theorem handle_frame_conn (now : Nat) (backend : String → String → BackendResp)
    (st : Pools) (c : ConnState) (frame : InFrame) :
    (ws_device_handle_frame now backend st c frame).2.1.deviceId = c.deviceId ∧
    (ws_device_handle_frame now backend st c frame).2.1.ws = c.ws ∧
    (ws_device_handle_frame now backend st c frame).2.1.authDeadline = c.authDeadline := by
  cases frame with
  | auth u p =>
    simp only [ws_device_handle_frame]
    cases backend u p with
    | ok bj =>
      by_cases hs : bj.success
      · cases hd : bj.data <;> simp [hs, hd]
      · simp [hs]
    | httpError code => simp
    | exn m => simp
  | ping =>
    simp only [ws_device_handle_frame]
    cases c.deviceName with
    | none => exact ⟨rfl, rfl, rfl⟩
    | some n => refine ⟨?_, ?_, ?_⟩ <;> split <;> first | rfl | (split <;> rfl)
  | status body =>
    simp only [ws_device_handle_frame]
    cases c.deviceName with
    | none => exact ⟨rfl, rfl, rfl⟩
    | some n => refine ⟨?_, ?_, ?_⟩ <;> split <;> first | rfl | (split <;> rfl)
  | other => exact ⟨rfl, rfl, rfl⟩

theorem send_cmd_live_eq (sendOk : Nat → Bool) (st : Pools) (cmd : String)
    {dev : String} {w : Nat} (hdev : dictGet st.devices dev = some w)
    (hok : sendOk w = true) :
    send_command_to_device sendOk st dev cmd =
      (st, ⟨"ok", okMessage cmd dev⟩, [.send w (.command cmd)]) := by
  unfold send_command_to_device
  rw [hdev]
  simp [hok]

theorem send_cmd_dead_eq (sendOk : Nat → Bool) (st : Pools) (cmd : String)
    {dev : String} {w : Nat} (hdev : dictGet st.devices dev = some w)
    (hok : sendOk w = false) :
    send_command_to_device sendOk st dev cmd =
      ({ st with devices := dictErase st.devices dev,
                 last_ping := dictErase st.last_ping dev },
       ⟨"error", "Device " ++ dev ++ " not connected (socket closed)."⟩, []) := by
  unfold send_command_to_device
  rw [hdev]
  simp [hok]

theorem send_cmd_offline_eq (sendOk : Nat → Bool) (st : Pools) (cmd : String)
    {dev : String} (hdev : dictGet st.devices dev = none) :
    send_command_to_device sendOk st dev cmd =
      (st, ⟨"error", "Device " ++ dev ++ " not connected."⟩, []) := by
  unfold send_command_to_device
  rw [hdev]

theorem send_cmd_preserves_live (sendOk : Nat → Bool) (st : Pools) (m cmd : String)
    {dev : String} {w : Nat} (hdev : dictGet st.devices dev = some w)
    (hok : sendOk w = true) :
    dictGet (send_command_to_device sendOk st m cmd).1.devices dev = some w := by
  unfold send_command_to_device
  cases hm : dictGet st.devices m with
  | none => simpa using hdev
  | some w' =>
    by_cases hok' : sendOk w' = true
    · simp [hok', hdev]
    · have hdm : ¬ dev = m := by
        intro he
        subst he
        rw [hdev] at hm
        cases hm
        exact hok' hok
      simp [hok', dictGet_erase_cases, hdm, hdev]

theorem send_cmd_preserves_none (sendOk : Nat → Bool) (st : Pools) (m cmd : String)
    {dev : String} (hdev : dictGet st.devices dev = none) :
    dictGet (send_command_to_device sendOk st m cmd).1.devices dev = none := by
  unfold send_command_to_device
  cases hm : dictGet st.devices m with
  | none => simpa using hdev
  | some w' =>
    by_cases hok' : sendOk w' = true
    · simp [hok', hdev]
    · simp only [hok', Bool.false_eq_true, if_false]
      rw [dictGet_erase_cases]
      split <;> simp [hdev]

theorem commandLoop_effs_mono (sendOk : Nat → Bool) (cmd : String)
    (names : List String) :
    ∀ st results effs e, e ∈ effs →
      e ∈ (commandLoop sendOk cmd names st results effs).2.2 := by
  induction names with
  | nil => intro st results effs e he; simpa [commandLoop] using he
  | cons m rest ih =>
    intro st results effs e he
    simp only [commandLoop]
    exact ih _ _ _ e (List.mem_append_left _ he)

theorem commandLoop_isSome_stable (sendOk : Nat → Bool) (cmd : String)
    (names : List String) :
    ∀ st results effs dev, (dictGet results dev).isSome = true →
      (dictGet (commandLoop sendOk cmd names st results effs).2.1 dev).isSome = true := by
  induction names with
  | nil => intro st results effs dev h; simpa [commandLoop] using h
  | cons m rest ih =>
    intro st results effs dev h
    simp only [commandLoop]
    apply ih
    rw [dictGet_set_cases]
    split <;> simp [h]

theorem commandLoop_mem_isSome (sendOk : Nat → Bool) (cmd : String)
    (names : List String) :
    ∀ st results effs dev, dev ∈ names →
      (dictGet (commandLoop sendOk cmd names st results effs).2.1 dev).isSome = true := by
  induction names with
  | nil => intro st results effs dev h; cases h
  | cons m rest ih =>
    intro st results effs dev h
    simp only [commandLoop]
    by_cases hmd : dev = m
    · subst hmd
      apply commandLoop_isSome_stable
      simp [dictGet_set_self]
    · rcases List.mem_cons.mp h with he | hr
      · exact absurd he hmd
      · exact ih _ _ _ dev hr

theorem commandLoop_ok_stable (sendOk : Nat → Bool) (cmd : String)
    (names : List String) :
    ∀ st results effs dev w,
      dictGet st.devices dev = some w → sendOk w = true →
      dictGet results dev = some ⟨"ok", okMessage cmd dev⟩ →
      dictGet (commandLoop sendOk cmd names st results effs).2.1 dev =
        some ⟨"ok", okMessage cmd dev⟩ := by
  induction names with
  | nil => intro st results effs dev w h1 h2 h3; simpa [commandLoop] using h3
  | cons m rest ih =>
    intro st results effs dev w h1 h2 h3
    simp only [commandLoop]
    by_cases hmd : m = dev
    · subst hmd
      rw [send_cmd_live_eq sendOk st cmd h1 h2]
      exact ih _ _ _ m w h1 h2 (by rw [dictGet_set_self])
    · refine ih _ _ _ dev w (send_cmd_preserves_live sendOk st m cmd h1 h2) h2 ?_
      rw [dictGet_set_cases]
      rw [if_neg (fun he => hmd he.symm)]
      exact h3

theorem commandLoop_err_stable (sendOk : Nat → Bool) (cmd : String)
    (names : List String) :
    ∀ st results effs dev,
      dictGet st.devices dev = none →
      dictGet results dev = some ⟨"error", "Device " ++ dev ++ " not connected."⟩ →
      dictGet (commandLoop sendOk cmd names st results effs).2.1 dev =
        some ⟨"error", "Device " ++ dev ++ " not connected."⟩ := by
  induction names with
  | nil => intro st results effs dev h1 h3; simpa [commandLoop] using h3
  | cons m rest ih =>
    intro st results effs dev h1 h3
    simp only [commandLoop]
    by_cases hmd : m = dev
    · subst hmd
      rw [send_cmd_offline_eq sendOk st cmd h1]
      exact ih _ _ _ m h1 (by rw [dictGet_set_self])
    · refine ih _ _ _ dev (send_cmd_preserves_none sendOk st m cmd h1) ?_
      rw [dictGet_set_cases]
      rw [if_neg (fun he => hmd he.symm)]
      exact h3

theorem commandLoop_live_mem (sendOk : Nat → Bool) (cmd : String)
    (names : List String) :
    ∀ st results effs dev w, dev ∈ names →
      dictGet st.devices dev = some w → sendOk w = true →
      Effect.send w (.command cmd) ∈ (commandLoop sendOk cmd names st results effs).2.2 ∧
      dictGet (commandLoop sendOk cmd names st results effs).2.1 dev =
        some ⟨"ok", okMessage cmd dev⟩ := by
  induction names with
  | nil => intro st results effs dev w h; cases h
  | cons m rest ih =>
    intro st results effs dev w hmem h1 h2
    simp only [commandLoop]
    by_cases hmd : m = dev
    · subst hmd
      rw [send_cmd_live_eq sendOk st cmd h1 h2]
      constructor
      · exact commandLoop_effs_mono sendOk cmd rest _ _ _ _
          (List.mem_append_right _ (by simp))
      · exact commandLoop_ok_stable sendOk cmd rest _ _ _ m w h1 h2
          (by rw [dictGet_set_self])
    · rcases List.mem_cons.mp hmem with he | hr
      · exact absurd he.symm hmd
      · exact ih _ _ _ dev w hr (send_cmd_preserves_live sendOk st m cmd h1 h2) h2

theorem commandLoop_offline_mem (sendOk : Nat → Bool) (cmd : String)
    (names : List String) :
    ∀ st results effs dev, dev ∈ names →
      dictGet st.devices dev = none →
      dictGet (commandLoop sendOk cmd names st results effs).2.1 dev =
        some ⟨"error", "Device " ++ dev ++ " not connected."⟩ := by
  induction names with
  | nil => intro st results effs dev h; cases h
  | cons m rest ih =>
    intro st results effs dev hmem h1
    simp only [commandLoop]
    by_cases hmd : m = dev
    · subst hmd
      rw [send_cmd_offline_eq sendOk st cmd h1]
      exact commandLoop_err_stable sendOk cmd rest _ _ _ m h1 (by rw [dictGet_set_self])
    · rcases List.mem_cons.mp hmem with he | hr
      · exact absurd he.symm hmd
      · exact ih _ _ _ dev hr (send_cmd_preserves_none sendOk st m cmd h1)

theorem sweep_aux_not_mem (now : Nat) (keys : List String) :
    ∀ st n, n ∉ keys →
      dictGet (monitor_pings_aux now keys st).1.devices n = dictGet st.devices n ∧
      dictGet (monitor_pings_aux now keys st).1.last_ping n = dictGet st.last_ping n ∧
      Effect.notify n "DISCONNECTED" none ∉ (monitor_pings_aux now keys st).2 := by
  induction keys with
  | nil =>
    intro st n h
    simp [monitor_pings_aux]
  | cons name rest ih =>
    intro st n h
    have hn : ¬ n = name := fun he => h (he ▸ List.mem_cons_self name rest)
    have hr : n ∉ rest := fun hr => h (List.mem_cons_of_mem _ hr)
    simp only [monitor_pings_aux]
    cases hlp : dictGet st.last_ping name with
    | none => exact ih st n hr
    | some lp =>
      by_cases hexp : now > lp + PING_TIMEOUT
      · simp only [hexp, if_pos]
        obtain ⟨h1, h2, h3⟩ := ih
          { st with devices := dictErase st.devices name,
                    last_ping := dictErase st.last_ping name } n hr
        refine ⟨?_, ?_, ?_⟩
        · rw [h1]
          simp [dictGet_erase_cases, hn]
        · rw [h2]
          simp [dictGet_erase_cases, hn]
        · intro hmem
          rcases List.mem_append.mp hmem with hl | hr'
          · rcases List.mem_append.mp hl with hc | hn'
            · cases hw : dictGet st.devices name with
              | none => rw [hw] at hc; simp at hc
              | some w => rw [hw] at hc; simp at hc
            · simp at hn'
              exact hn hn'
          · exact h3 hr'
      · simp only [hexp, if_neg, ite_false]
        exact ih st n hr

theorem sweep_aux_expired (now : Nat) (keys : List String) :
    ∀ st n lp w, keys.Nodup → n ∈ keys →
      dictGet st.last_ping n = some lp → dictGet st.devices n = some w →
      now > lp + PING_TIMEOUT →
      dictGet (monitor_pings_aux now keys st).1.devices n = none ∧
      dictGet (monitor_pings_aux now keys st).1.last_ping n = none ∧
      Effect.close w none ∈ (monitor_pings_aux now keys st).2 ∧
      Effect.notify n "DISCONNECTED" none ∈ (monitor_pings_aux now keys st).2 := by
  induction keys with
  | nil => intro st n lp w _ h; cases h
  | cons name rest ih =>
    intro st n lp w hnd hmem hlp hdev hexp
    by_cases hn : name = n
    · subst hn
      have hnr : name ∉ rest := (List.nodup_cons.mp hnd).1
      simp only [monitor_pings_aux]
      rw [hlp]
      simp only [hexp, if_pos]
      rw [hdev]
      obtain ⟨h1, h2, _⟩ := sweep_aux_not_mem now rest
        { st with devices := dictErase st.devices name,
                  last_ping := dictErase st.last_ping name } name hnr
      refine ⟨?_, ?_, ?_, ?_⟩
      · rw [h1]
        simp [dictGet_erase_self]
      · rw [h2]
        simp [dictGet_erase_self]
      · exact List.mem_append_left _ (by simp)
      · exact List.mem_append_left _ (by simp)
    · have hmem' : n ∈ rest := by
        rcases List.mem_cons.mp hmem with he | hr
        · exact absurd he.symm hn
        · exact hr
      have hnd' : rest.Nodup := (List.nodup_cons.mp hnd).2
      simp only [monitor_pings_aux]
      cases hlp' : dictGet st.last_ping name with
      | none => exact ih st n lp w hnd' hmem' hlp hdev hexp
      | some lp' =>
        by_cases hexp' : now > lp' + PING_TIMEOUT
        · simp only [hexp', if_pos]
          have hne : ¬ n = name := fun he => hn he.symm
          obtain ⟨h1, h2, h3, h4⟩ := ih
            { st with devices := dictErase st.devices name,
                      last_ping := dictErase st.last_ping name } n lp w hnd' hmem'
            (by simp [dictGet_erase_cases, hne, hlp])
            (by simp [dictGet_erase_cases, hne, hdev]) hexp
          exact ⟨h1, h2, List.mem_append_right _ h3, List.mem_append_right _ h4⟩
        · simp only [hexp', if_neg, ite_false]
          exact ih st n lp w hnd' hmem' hlp hdev hexp

theorem sweep_aux_fresh (now : Nat) (keys : List String) :
    ∀ st n lp w,
      dictGet st.last_ping n = some lp → dictGet st.devices n = some w →
      ¬ now > lp + PING_TIMEOUT →
      dictGet (monitor_pings_aux now keys st).1.devices n = some w ∧
      dictGet (monitor_pings_aux now keys st).1.last_ping n = some lp ∧
      Effect.notify n "DISCONNECTED" none ∉ (monitor_pings_aux now keys st).2 := by
  induction keys with
  | nil =>
    intro st n lp w hlp hdev _
    simp [monitor_pings_aux, hlp, hdev]
  | cons name rest ih =>
    intro st n lp w hlp hdev hfresh
    simp only [monitor_pings_aux]
    by_cases hn : name = n
    · subst hn
      rw [hlp]
      simp only [hfresh, if_neg, ite_false]
      exact ih st name lp w hlp hdev hfresh
    · have hne : ¬ n = name := fun he => hn he.symm
      cases hlp' : dictGet st.last_ping name with
      | none => exact ih st n lp w hlp hdev hfresh
      | some lp' =>
        by_cases hexp' : now > lp' + PING_TIMEOUT
        · simp only [hexp', if_pos]
          obtain ⟨h1, h2, h3⟩ := ih
            { st with devices := dictErase st.devices name,
                      last_ping := dictErase st.last_ping name } n lp w
            (by simp [dictGet_erase_cases, hne, hlp])
            (by simp [dictGet_erase_cases, hne, hdev]) hfresh
          refine ⟨h1, h2, ?_⟩
          intro hmem
          rcases List.mem_append.mp hmem with hl | hr'
          · rcases List.mem_append.mp hl with hc | hn'
            · cases hw : dictGet st.devices name with
              | none => rw [hw] at hc; simp at hc
              | some w' => rw [hw] at hc; simp at hc
            · simp at hn'
              exact hne hn'
          · exact h3 hr'
        · simp only [hexp', if_neg, ite_false]
          exact ih st n lp w hlp hdev hfresh

theorem consistent_accept (now : Nat) (st : Pools) (deviceId : String) (ws : Nat)
    (h : PoolsConsistent st) : PoolsConsistent (ws_device_accept now st deviceId ws).1 := by
  intro k
  exact h k

theorem consistent_send_cmd (sendOk : Nat → Bool) (st : Pools) (n cmd : String)
    (h : PoolsConsistent st) :
    PoolsConsistent (send_command_to_device sendOk st n cmd).1 := by
  unfold send_command_to_device
  cases hm : dictGet st.devices n with
  | none => exact h
  | some w =>
    by_cases hok : sendOk w = true
    · simpa [hok] using h
    · simp only [hok, Bool.false_eq_true, if_false]
      intro k
      simp only [dictGet_erase_cases]
      split
      · simp
      · exact h k

theorem consistent_commandLoop (sendOk : Nat → Bool) (cmd : String)
    (names : List String) :
    ∀ st results effs, PoolsConsistent st →
      PoolsConsistent (commandLoop sendOk cmd names st results effs).1 := by
  induction names with
  | nil => intro st results effs h; exact h
  | cons m rest ih =>
    intro st results effs h
    exact ih _ _ _ (consistent_send_cmd sendOk st m cmd h)

theorem consistent_receive_command (sendOk : Nat → Bool) (st : Pools)
    (cmd : String) (target : Target) (h : PoolsConsistent st) :
    PoolsConsistent (receive_command sendOk st cmd target).1 := by
  unfold receive_command
  split
  · exact h
  · cases target with
    | absent => exact h
    | list names => exact consistent_commandLoop sendOk cmd names st [] [] h
    | single n => exact consistent_send_cmd sendOk st n cmd h

theorem consistent_handle_frame (now : Nat) (backend : String → String → BackendResp)
    (st : Pools) (c : ConnState) (frame : InFrame) (h : PoolsConsistent st) :
    PoolsConsistent (ws_device_handle_frame now backend st c frame).1 := by
  cases frame with
  | auth u p =>
    simp only [ws_device_handle_frame]
    cases backend u p with
    | ok bj =>
      by_cases hs : bj.success
      · cases hd : bj.data with
        | some d =>
          simp only [hs, hd, if_pos]
          intro k
          simp only [dictGet_set_cases]
          split
          · simp
          · exact h k
        | none => simpa [hs, hd] using h
      · simpa [hs] using h
    | httpError code => exact h
    | exn m => exact h
  | ping =>
    simp only [ws_device_handle_frame]
    cases hn : c.deviceName with
    | none => exact h
    | some n =>
      by_cases hreg : (dictGet st.devices n).isSome = true
      · simp only [hreg, if_pos]
        intro k
        simp only [dictGet_set_cases]
        by_cases hk : k = n
        · subst hk
          simp [hreg]
        · simp only [if_neg hk]
          exact h k
      · simpa [hreg] using h
  | status body =>
    simp only [ws_device_handle_frame]
    cases hn : c.deviceName with
    | none => exact h
    | some n =>
      by_cases hreg : (dictGet st.devices n).isSome = true
      · simpa [hreg] using h
      · simpa [hreg] using h
  | other => exact h

theorem consistent_step (now : Nat) (backend : String → String → BackendResp)
    (st : Pools) (c : ConnState) (frame : InFrame) (h : PoolsConsistent st) :
    PoolsConsistent (ws_device_step now backend st c frame).1 := by
  have h1 := consistent_handle_frame now backend st c frame h
  simp only [ws_device_step]
  split
  · exact h1
  · simp only [ws_device_timeout_check]
    split
    · intro k
      exact h1 k
    · exact h1

theorem consistent_disconnect (st : Pools) (c : ConnState) (h : PoolsConsistent st) :
    PoolsConsistent (ws_device_disconnect st c).1 := by
  obtain ⟨did, ws, dl, dn⟩ := c
  cases dn with
  | none => intro k; exact h k
  | some n =>
    simp only [ws_device_disconnect]
    split
    · intro k
      simp only [dictGet_erase_cases]
      by_cases hk : k = n
      · simp [hk]
      · simp only [if_neg hk]
        exact h k
    · intro k
      exact h k

theorem consistent_sweep_aux (now : Nat) (keys : List String) :
    ∀ st, PoolsConsistent st →
      PoolsConsistent (monitor_pings_aux now keys st).1 := by
  induction keys with
  | nil => intro st h; exact h
  | cons name rest ih =>
    intro st h
    simp only [monitor_pings_aux]
    cases hlp : dictGet st.last_ping name with
    | none => exact ih st h
    | some lp =>
      by_cases hexp : now > lp + PING_TIMEOUT
      · simp only [hexp, if_pos]
        refine ih _ ?_
        intro k
        simp only [dictGet_erase_cases]
        split
        · simp
        · exact h k
      · simp only [hexp, if_neg, ite_false]
        exact ih st h

theorem step_auth_success (now : Nat) (backend : String → String → BackendResp)
    (st : Pools) (c : ConnState) (u p : String) (bj : BackendJson) (d : AuthData)
    (hb : backend u p = .ok bj) (hs : bj.success = true) (hd : bj.data = some d) :
    ws_device_step now backend st c (.auth u p) =
      ({ unauthenticated := dictErase st.unauthenticated c.deviceId,
         devices := dictSet st.devices d.device_name c.ws,
         last_ping := dictSet st.last_ping d.device_name now },
       { c with deviceName := some d.device_name },
       [.send c.ws (.command (if d.hard_switch_enabled then "HARD_ON" else "HARD_OFF")),
        .notify d.device_name "CONNECTED" none], false) := by
  simp only [ws_device_step, ws_device_handle_frame, hb, hs, hd, if_pos]
  simp only [ws_device_timeout_check, dictGet_erase_self, Option.isSome_none,
    Bool.false_eq_true, false_and, if_neg, ite_false, List.append_nil]

theorem send_cmd_status (sendOk : Nat → Bool) (st : Pools) (n cmd : String) :
    (send_command_to_device sendOk st n cmd).2.1.status = "ok" ∨
    (send_command_to_device sendOk st n cmd).2.1.status = "error" := by
  unfold send_command_to_device
  cases dictGet st.devices n with
  | some w => by_cases hok : sendOk w = true <;> simp [hok]
  | none => simp

theorem step_pending_alive_silent (now : Nat) (backend : String → String → BackendResp) :
    ∀ st (c : ConnState) frame, c.deviceName = none →
      (ws_device_step now backend st c frame).2.1.deviceName = none →
      (ws_device_step now backend st c frame).2.2.2 = false →
      (ws_device_step now backend st c frame).2.2.1 = [] := by
  intro st c frame hpend hpend' hdone
  cases frame with
  | auth u p =>
    cases hbk : backend u p with
    | ok bj =>
      by_cases hs : bj.success = true
      · cases hdd : bj.data with
        | some d =>
          rw [step_auth_success now backend st c u p bj d hbk hs hdd] at hpend'
          simp at hpend'
        | none =>
          simp only [ws_device_step, ws_device_handle_frame, hbk, hs, hdd, if_pos] at hdone
          simp at hdone
      · simp only [ws_device_step, ws_device_handle_frame, hbk, hs] at hdone
        simp [hs] at hdone
    | httpError code =>
      simp only [ws_device_step, ws_device_handle_frame, hbk] at hdone
      simp at hdone
    | exn m =>
      simp only [ws_device_step, ws_device_handle_frame, hbk] at hdone
      simp at hdone
  | ping =>
    simp only [ws_device_step, ws_device_handle_frame, hpend] at hdone ⊢
    simp only [ws_device_timeout_check] at hdone ⊢
    by_cases hc : (dictGet st.unauthenticated c.deviceId).isSome = true ∧ now > c.authDeadline
    · rw [if_pos hc] at hdone
      simp at hdone
    · rw [if_neg hc]
      simp
  | status body =>
    simp only [ws_device_step, ws_device_handle_frame, hpend] at hdone ⊢
    simp only [ws_device_timeout_check] at hdone ⊢
    by_cases hc : (dictGet st.unauthenticated c.deviceId).isSome = true ∧ now > c.authDeadline
    · rw [if_pos hc] at hdone
      simp at hdone
    · rw [if_neg hc]
      simp
  | other =>
    simp only [ws_device_step, ws_device_handle_frame] at hdone ⊢
    simp only [ws_device_timeout_check] at hdone ⊢
    by_cases hc : (dictGet st.unauthenticated c.deviceId).isSome = true ∧ now > c.authDeadline
    · rw [if_pos hc] at hdone
      simp at hdone
    · rw [if_neg hc]
      simp

/-- C1 counterexample: with device "D1" registered on socket 1, a second
connection (socket 2) authenticating as "D1" replaces the registry entry,
but the step emits only the initial command and the CONNECTED callback —
no close of socket 1 — so the prior transport handle is not closed before
the new session takes its place, contrary to the claim. -/
theorem C1_counterexample :
    (ws_device_step 120 (fun _ _ => .ok ⟨true, none, some ⟨"D1", true⟩⟩)
        ⟨[("id2", 2)], [("D1", 1)], [("D1", 100)]⟩
        ⟨"id2", 2, 160, none⟩ (.auth "u" "p")).2.2.1 =
      [.send 2 (.command "HARD_ON"), .notify "D1" "CONNECTED" none] ∧
    dictGet (ws_device_step 120 (fun _ _ => .ok ⟨true, none, some ⟨"D1", true⟩⟩)
        ⟨[("id2", 2)], [("D1", 1)], [("D1", 100)]⟩
        ⟨"id2", 2, 160, none⟩ (.auth "u" "p")).1.devices "D1" = some 2 := by
  constructor <;> decide

/-- C1 (amended): at most one registered session per device name holds —
the devices dict keeps unique keys and a successful authentication under an
existing name replaces the prior entry, last-writer-wins — but the step
emits no transport close at all, so the evicted session's handle is left
open rather than closed. -/
theorem C1_collision_evicts_without_close
    (now : Nat) (backend : String → String → BackendResp) (st : Pools)
    (c : ConnState) (u p : String) (bj : BackendJson) (d : AuthData)
    (hb : backend u p = .ok bj) (hs : bj.success = true) (hd : bj.data = some d)
    (hnodup : (dictKeys st.devices).Nodup) :
    (dictKeys (ws_device_step now backend st c (.auth u p)).1.devices).Nodup ∧
    dictGet (ws_device_step now backend st c (.auth u p)).1.devices d.device_name =
      some c.ws ∧
    ∀ w code, Effect.close w code ∉ (ws_device_step now backend st c (.auth u p)).2.2.1 := by
  rw [step_auth_success now backend st c u p bj d hb hs hd]
  refine ⟨nodup_dictKeys_set d.device_name c.ws hnodup, dictGet_set_self _ _ _, ?_⟩
  intro w code hmem
  simp at hmem

/-- C1 witness: the amended statement applied with device "D1" registered
on socket 1 and a new session on socket 9 re-authenticating as "D1". -/
theorem C1_amended_witness :
    (dictKeys (ws_device_step 120 (fun _ _ => .ok ⟨true, none, some ⟨"D1", false⟩⟩)
        ⟨[("id9", 9)], [("D1", 1)], [("D1", 100)]⟩
        ⟨"id9", 9, 160, none⟩ (.auth "u" "p")).1.devices).Nodup ∧
    dictGet (ws_device_step 120 (fun _ _ => .ok ⟨true, none, some ⟨"D1", false⟩⟩)
        ⟨[("id9", 9)], [("D1", 1)], [("D1", 100)]⟩
        ⟨"id9", 9, 160, none⟩ (.auth "u" "p")).1.devices "D1" = some 9 ∧
    Effect.close 1 none ∉ (ws_device_step 120 (fun _ _ => .ok ⟨true, none, some ⟨"D1", false⟩⟩)
        ⟨[("id9", 9)], [("D1", 1)], [("D1", 100)]⟩
        ⟨"id9", 9, 160, none⟩ (.auth "u" "p")).2.2.1 := by
  obtain ⟨h1, h2, h3⟩ := C1_collision_evicts_without_close 120
    (fun _ _ => .ok ⟨true, none, some ⟨"D1", false⟩⟩)
    ⟨[("id9", 9)], [("D1", 1)], [("D1", 100)]⟩ ⟨"id9", 9, 160, none⟩
    "u" "p" ⟨true, none, some ⟨"D1", false⟩⟩ ⟨"D1", false⟩ rfl rfl rfl (by decide)
  exact ⟨h1, h2, h3 1 none⟩

/-- C2 counterexample: with device "D1" registered and its socket healthy,
a command submission with an absent target is rejected with the
`Missing deviceName` error and zero send effects — no broadcast to the
registered device happens, contrary to the claim. -/
theorem C2_counterexample :
    receive_command (fun _ => true) ⟨[], [("D1", 1)], [("D1", 100)]⟩ "ON" Target.absent =
      (⟨[], [("D1", 1)], [("D1", 100)]⟩, .single ⟨"error", "Missing deviceName"⟩, []) := by
  decide

/-- C2 (amended): a falsy target (absent, empty string or empty array) is
rejected with `{status:"error", message:"Missing deviceName"}` and nothing
is delivered; an array target yields `{status:"multi"}` with one results
entry per target; a single non-empty target yields the single result of
`send_command_to_device`, whose status is "ok" or "error". -/
theorem C2_target_shapes (sendOk : Nat → Bool) (st : Pools) (cmd : String) :
    (∀ t : Target, targetTruthy t = false →
      receive_command sendOk st cmd t =
        (st, .single ⟨"error", "Missing deviceName"⟩, [])) ∧
    (∀ names : List String, names ≠ [] →
      (receive_command sendOk st cmd (.list names)).2.1 =
        .multi (commandLoop sendOk cmd names st [] []).2.1 ∧
      ∀ dev, dev ∈ names →
        (dictGet (commandLoop sendOk cmd names st [] []).2.1 dev).isSome = true) ∧
    (∀ n : String, n ≠ "" →
      (receive_command sendOk st cmd (.single n)).2.1 =
        .single (send_command_to_device sendOk st n cmd).2.1 ∧
      ((send_command_to_device sendOk st n cmd).2.1.status = "ok" ∨
       (send_command_to_device sendOk st n cmd).2.1.status = "error")) := by
  refine ⟨?_, ?_, ?_⟩
  · intro t ht
    simp [receive_command, ht]
  · intro names hne
    have ht : targetTruthy (.list names) = true := by simp [targetTruthy, hne]
    refine ⟨by simp [receive_command, ht], ?_⟩
    intro dev hmem
    exact commandLoop_mem_isSome sendOk cmd names st [] [] dev hmem
  · intro n hn
    have ht : targetTruthy (.single n) = true := by simp [targetTruthy, hn]
    exact ⟨by simp [receive_command, ht], send_cmd_status sendOk st n cmd⟩

/-- C2 witness: the amended statement applied to an absent target with a
device registered. -/
theorem C2_amended_witness :
    receive_command (fun _ => true) ⟨[], [("D1", 1)], [("D1", 5)]⟩ "ON" Target.absent =
      (⟨[], [("D1", 1)], [("D1", 5)]⟩, .single ⟨"error", "Missing deviceName"⟩, []) :=
  (C2_target_shapes (fun _ => true) ⟨[], [("D1", 1)], [("D1", 5)]⟩ "ON").1 .absent rfl

/-- C3: an observer command to an unregistered device name yields exactly
the `device offline` error reply to that observer, with no other effect and
no registry change; for a registered target the command is forwarded and
the observer gets an acknowledgement tagged with the target identity. -/
theorem C3_observer_offline_error (st : Pools) (obsWs : Nat) (t cmd : String) :
    (dictGet st.devices t = none →
      routeObserverCommand st obsWs t cmd =
        (st, [.send obsWs (.errorMsg "device offline")])) ∧
    (∀ ws, dictGet st.devices t = some ws →
      routeObserverCommand st obsWs t cmd =
        (st, [.send ws (.command cmd), .send obsWs (.ack t)])) := by
  constructor
  · intro h
    unfold routeObserverCommand
    rw [h]
  · intro ws h
    unfold routeObserverCommand
    rw [h]

/-- C3 witness: an observer on socket 7 targets the never-registered device
"D9" and gets exactly the offline error. -/
theorem C3_witness :
    routeObserverCommand ⟨[], [], []⟩ 7 "D9" "ON" =
      (⟨[], [], []⟩, [.send 7 (.errorMsg "device offline")]) :=
  (C3_observer_offline_error ⟨[], [], []⟩ 7 "D9" "ON").1 rfl

/-- C4: on a verified credential frame (backend 200, success, data present),
the session is registered under the returned device name with its heartbeat
set, the emitted frames are exactly the initial command — HARD_ON when the
flag is true, HARD_OFF otherwise — followed by the CONNECTED upstream
event, and (last conjunct) a step that leaves a session pending and alive
emits nothing, so the initial command really is the first frame the device
receives. -/
theorem C4_auth_success_initial_command
    (now : Nat) (backend : String → String → BackendResp) (st : Pools)
    (c : ConnState) (u p : String) (bj : BackendJson) (d : AuthData)
    (hb : backend u p = .ok bj) (hs : bj.success = true) (hd : bj.data = some d) :
    dictGet (ws_device_step now backend st c (.auth u p)).1.devices d.device_name =
      some c.ws ∧
    dictGet (ws_device_step now backend st c (.auth u p)).1.last_ping d.device_name =
      some now ∧
    (ws_device_step now backend st c (.auth u p)).2.2.1 =
      [.send c.ws (.command (if d.hard_switch_enabled then "HARD_ON" else "HARD_OFF")),
       .notify d.device_name "CONNECTED" none] ∧
    (∀ st' (c' : ConnState) frame', c'.deviceName = none →
      (ws_device_step now backend st' c' frame').2.1.deviceName = none →
      (ws_device_step now backend st' c' frame').2.2.2 = false →
      (ws_device_step now backend st' c' frame').2.2.1 = []) := by
  rw [step_auth_success now backend st c u p bj d hb hs hd]
  exact ⟨dictGet_set_self _ _ _, dictGet_set_self _ _ _, rfl,
    fun st' c' frame' => step_pending_alive_silent now backend st' c' frame'⟩

/-- C4 witness: device "D1" authenticates with `hard_switch_enabled:true`
and receives `HARD_ON` as its first frame, with the CONNECTED callback. -/
theorem C4_witness :
    dictGet (ws_device_step 100 (fun _ _ => .ok ⟨true, none, some ⟨"D1", true⟩⟩)
        ⟨[("id1", 1)], [], []⟩ ⟨"id1", 1, 160, none⟩ (.auth "u" "p")).1.devices "D1" =
      some 1 ∧
    (ws_device_step 100 (fun _ _ => .ok ⟨true, none, some ⟨"D1", true⟩⟩)
        ⟨[("id1", 1)], [], []⟩ ⟨"id1", 1, 160, none⟩ (.auth "u" "p")).2.2.1 =
      [.send 1 (.command "HARD_ON"), .notify "D1" "CONNECTED" none] := by
  obtain ⟨h1, h2, h3, h4⟩ := C4_auth_success_initial_command 100
    (fun _ _ => .ok ⟨true, none, some ⟨"D1", true⟩⟩) ⟨[("id1", 1)], [], []⟩
    ⟨"id1", 1, 160, none⟩ "u" "p" ⟨true, none, some ⟨"D1", true⟩⟩ ⟨"D1", true⟩ rfl rfl rfl
  refine ⟨h1, ?_⟩
  rw [h3]
  decide

/-- C5 counterexample: a pending session past its auth deadline sends a
credential frame that verifies successfully; contrary to the claim, the
frame does not lead to eviction with close code 4003 — the session is
authenticated and registered, and no close is emitted at all. -/
theorem C5_counterexample :
    ws_device_step 200 (fun _ _ => .ok ⟨true, none, some ⟨"D1", true⟩⟩)
        ⟨[("id1", 1)], [], []⟩ ⟨"id1", 1, 60, none⟩ (.auth "u" "p") =
      (⟨[], [("D1", 1)], [("D1", 200)]⟩, ⟨"id1", 1, 60, some "D1"⟩,
       [.send 1 (.command "HARD_ON"), .notify "D1" "CONNECTED" none], false) := by
  decide

/-- C5 (amended): the grace-period check runs after the frame handling of
every inbound frame; whenever handling a frame leaves the connection
unterminated and its deviceId still in the pending pool and the deadline
has passed, the session is dropped from the pending pool, closed with code
4003 and reported upstream as REJECTED/Timeout.  A frame whose handling
authenticates the session (or terminates it on an auth failure) escapes
this check. -/
theorem C5_timeout_checked_after_frame
    (now : Nat) (backend : String → String → BackendResp) (st : Pools)
    (c : ConnState) (frame : InFrame)
    (hpend : (dictGet (ws_device_handle_frame now backend st c frame).1.unauthenticated
        c.deviceId).isSome = true)
    (hdone : (ws_device_handle_frame now backend st c frame).2.2.2 = false)
    (hlate : now > c.authDeadline) :
    ws_device_step now backend st c frame =
      ({ (ws_device_handle_frame now backend st c frame).1 with
          unauthenticated :=
            dictErase (ws_device_handle_frame now backend st c frame).1.unauthenticated
              c.deviceId },
       (ws_device_handle_frame now backend st c frame).2.1,
       (ws_device_handle_frame now backend st c frame).2.2.1 ++
         [.send c.ws (.authFailed "Timeout: no auth within 60s"),
          .close c.ws (some 4003),
          .notify c.deviceId "REJECTED" (some (.reason "Timeout"))], true) := by
  obtain ⟨hid, hws, hdl⟩ := handle_frame_conn now backend st c frame
  simp only [ws_device_step, hdone, Bool.false_eq_true, if_false,
    ws_device_timeout_check, hid, hws, hdl]
  rw [if_pos ⟨hpend, hlate⟩]

/-- C5 witness: a pending session past the deadline sends a ping; the
handler evicts it with close code 4003 and the Timeout rejection. -/
theorem C5_witness :
    ws_device_step 200 (fun _ _ => .exn "boom") ⟨[("id1", 1)], [], []⟩
        ⟨"id1", 1, 60, none⟩ .ping =
      (⟨[], [], []⟩, ⟨"id1", 1, 60, none⟩,
       [.send 1 (.authFailed "Timeout: no auth within 60s"), .close 1 (some 4003),
        .notify "id1" "REJECTED" (some (.reason "Timeout"))], true) := by
  rw [C5_timeout_checked_after_frame 200 (fun _ _ => .exn "boom") ⟨[("id1", 1)], [], []⟩
    ⟨"id1", 1, 60, none⟩ .ping (by decide) (by decide) (by decide)]
  decide

/-- C6: a sweep cycle evicts exactly the devices whose last heartbeat is
older than PING_TIMEOUT — removing them from both maps, closing their
socket and emitting DISCONNECTED — and leaves devices within the timeout
untouched, with no DISCONNECTED event for them. -/
theorem C6_heartbeat_sweep (now : Nat) (st : Pools) (n : String) (lp w : Nat)
    (hnodup : (dictKeys st.last_ping).Nodup)
    (hlp : dictGet st.last_ping n = some lp)
    (hdev : dictGet st.devices n = some w) :
    (now > lp + PING_TIMEOUT →
      dictGet (monitor_pings_once now st).1.devices n = none ∧
      dictGet (monitor_pings_once now st).1.last_ping n = none ∧
      Effect.close w none ∈ (monitor_pings_once now st).2 ∧
      Effect.notify n "DISCONNECTED" none ∈ (monitor_pings_once now st).2) ∧
    (¬ now > lp + PING_TIMEOUT →
      dictGet (monitor_pings_once now st).1.devices n = some w ∧
      dictGet (monitor_pings_once now st).1.last_ping n = some lp ∧
      Effect.notify n "DISCONNECTED" none ∉ (monitor_pings_once now st).2) := by
  constructor
  · intro hexp
    exact sweep_aux_expired now (dictKeys st.last_ping) st n lp w hnodup
      (mem_dictKeys_of_get hlp) hlp hdev hexp
  · intro hfresh
    exact sweep_aux_fresh now (dictKeys st.last_ping) st n lp w hlp hdev hfresh

/-- C6 witness: device "D1" last pinged at 10; at time 200 the sweep evicts
it from both maps, closes socket 1 and notifies DISCONNECTED. -/
theorem C6_witness :
    dictGet (monitor_pings_once 200 ⟨[], [("D1", 1)], [("D1", 10)]⟩).1.devices "D1" =
      none ∧
    dictGet (monitor_pings_once 200 ⟨[], [("D1", 1)], [("D1", 10)]⟩).1.last_ping "D1" =
      none ∧
    Effect.close 1 none ∈ (monitor_pings_once 200 ⟨[], [("D1", 1)], [("D1", 10)]⟩).2 ∧
    Effect.notify "D1" "DISCONNECTED" none ∈
      (monitor_pings_once 200 ⟨[], [("D1", 1)], [("D1", 10)]⟩).2 :=
  (C6_heartbeat_sweep 200 ⟨[], [("D1", 1)], [("D1", 10)]⟩ "D1" 10 1
    (by decide) (by decide) (by decide)).1 (by decide)

/-- C7: a send failure on a registered target evicts that device from both
the registry and the heartbeat map, leaves every other entry unchanged,
returns the "not connected (socket closed)" error with no send effect (no
retry), while an unregistered target returns the "not connected" error
with the state unchanged. -/
theorem C7_dead_target_eviction (sendOk : Nat → Bool) (st : Pools) (n cmd : String) :
    (∀ w, dictGet st.devices n = some w → sendOk w = false →
      dictGet (send_command_to_device sendOk st n cmd).1.devices n = none ∧
      dictGet (send_command_to_device sendOk st n cmd).1.last_ping n = none ∧
      (∀ m, m ≠ n →
        dictGet (send_command_to_device sendOk st n cmd).1.devices m =
          dictGet st.devices m ∧
        dictGet (send_command_to_device sendOk st n cmd).1.last_ping m =
          dictGet st.last_ping m) ∧
      (send_command_to_device sendOk st n cmd).2.1 =
        ⟨"error", "Device " ++ n ++ " not connected (socket closed)."⟩ ∧
      (send_command_to_device sendOk st n cmd).2.2 = []) ∧
    (dictGet st.devices n = none →
      send_command_to_device sendOk st n cmd =
        (st, ⟨"error", "Device " ++ n ++ " not connected."⟩, [])) := by
  constructor
  · intro w hw hok
    rw [send_cmd_dead_eq sendOk st cmd hw hok]
    refine ⟨dictGet_erase_self _ _, dictGet_erase_self _ _, ?_, rfl, rfl⟩
    intro m hm
    exact ⟨dictGet_erase_ne _ hm, dictGet_erase_ne _ hm⟩
  · intro h
    exact send_cmd_offline_eq sendOk st cmd h

/-- C7 witness: device "D1" is registered on socket 1 whose send fails; the
delivery evicts it from both maps and returns no send effect. -/
theorem C7_witness :
    dictGet (send_command_to_device (fun _ => false)
        ⟨[], [("D1", 1)], [("D1", 5)]⟩ "D1" "ON").1.devices "D1" = none ∧
    dictGet (send_command_to_device (fun _ => false)
        ⟨[], [("D1", 1)], [("D1", 5)]⟩ "D1" "ON").1.last_ping "D1" = none ∧
    (send_command_to_device (fun _ => false)
        ⟨[], [("D1", 1)], [("D1", 5)]⟩ "D1" "ON").2.2 = [] := by
  obtain ⟨h1, h2, h3, h4, h5⟩ := (C7_dead_target_eviction (fun _ => false)
    ⟨[], [("D1", 1)], [("D1", 5)]⟩ "D1" "ON").1 1 (by decide) rfl
  exact ⟨h1, h2, h5⟩

/-- C8: a multi-target submission attempts every listed target
independently: the response is the `multi` map of the per-target loop,
every listed target has a results entry, every live target receives the
command frame and reports "ok" regardless of other targets' failures, and
every unregistered target gets its own "not connected" entry. -/
theorem C8_multi_target_isolation (sendOk : Nat → Bool) (st : Pools)
    (cmd : String) (names : List String) (hne : names ≠ []) :
    (receive_command sendOk st cmd (.list names)).2.1 =
      .multi (commandLoop sendOk cmd names st [] []).2.1 ∧
    (receive_command sendOk st cmd (.list names)).2.2 =
      (commandLoop sendOk cmd names st [] []).2.2 ∧
    (∀ dev, dev ∈ names →
      (dictGet (commandLoop sendOk cmd names st [] []).2.1 dev).isSome = true) ∧
    (∀ dev w, dev ∈ names → dictGet st.devices dev = some w → sendOk w = true →
      Effect.send w (.command cmd) ∈ (commandLoop sendOk cmd names st [] []).2.2 ∧
      dictGet (commandLoop sendOk cmd names st [] []).2.1 dev =
        some ⟨"ok", okMessage cmd dev⟩) ∧
    (∀ dev, dev ∈ names → dictGet st.devices dev = none →
      dictGet (commandLoop sendOk cmd names st [] []).2.1 dev =
        some ⟨"error", "Device " ++ dev ++ " not connected."⟩) := by
  have ht : targetTruthy (.list names) = true := by simp [targetTruthy, hne]
  refine ⟨by simp [receive_command, ht], by simp [receive_command, ht], ?_, ?_, ?_⟩
  · intro dev hmem
    exact commandLoop_mem_isSome sendOk cmd names st [] [] dev hmem
  · intro dev w hmem h1 h2
    exact commandLoop_live_mem sendOk cmd names st [] [] dev w hmem h1 h2
  · intro dev hmem h1
    exact commandLoop_offline_mem sendOk cmd names st [] [] dev hmem h1

/-- C8 witness: targets ["D1","D2"] with only "D1" registered and healthy:
"D1" receives the command and "D2" gets its own failure entry. -/
theorem C8_witness :
    Effect.send 1 (OutFrame.command "ON") ∈
      (commandLoop (fun _ => true) "ON" ["D1", "D2"]
        ⟨[], [("D1", 1)], [("D1", 5)]⟩ [] []).2.2 ∧
    dictGet (commandLoop (fun _ => true) "ON" ["D1", "D2"]
        ⟨[], [("D1", 1)], [("D1", 5)]⟩ [] []).2.1 "D2" =
      some ⟨"error", "Device " ++ "D2" ++ " not connected."⟩ := by
  obtain ⟨-, -, -, h4, h5⟩ := C8_multi_target_isolation (fun _ => true)
    ⟨[], [("D1", 1)], [("D1", 5)]⟩ "ON" ["D1", "D2"] (by decide)
  exact ⟨(h4 "D1" 1 (by decide) (by decide) rfl).1, h5 "D2" (by decide) (by decide)⟩

/-- C9: a ping frame from an authenticated, registered device produces
exactly one pong on that device's socket and resets its heartbeat to the
current time; no other pool entry, no other heartbeat, and no upstream or
broadcast effect results. -/
theorem C9_ping_pong_heartbeat (now : Nat) (backend : String → String → BackendResp)
    (st : Pools) (c : ConnState) (n : String)
    (hname : c.deviceName = some n)
    (hreg : (dictGet st.devices n).isSome = true)
    (hauth : dictGet st.unauthenticated c.deviceId = none) :
    ws_device_step now backend st c .ping =
      ({ st with last_ping := dictSet st.last_ping n now }, c,
       [.send c.ws .pong], false) ∧
    dictGet (dictSet st.last_ping n now) n = some now ∧
    (∀ m, m ≠ n → dictGet (dictSet st.last_ping n now) m = dictGet st.last_ping m) := by
  refine ⟨?_, dictGet_set_self _ _ _, fun m hm => dictGet_set_ne _ _ hm⟩
  simp only [ws_device_step, ws_device_handle_frame, hname, hreg, if_pos,
    ws_device_timeout_check, hauth, Option.isSome_none, Bool.false_eq_true,
    false_and, if_false, List.append_nil]

/-- C9 witness: authenticated device "D1" on socket 3 pings at time 999 and
gets exactly one pong with its heartbeat reset, even past any deadline. -/
theorem C9_witness :
    ws_device_step 999 (fun _ _ => .exn "") ⟨[], [("D1", 3)], [("D1", 5)]⟩
        ⟨"id1", 3, 60, some "D1"⟩ .ping =
      ({ unauthenticated := [], devices := [("D1", 3)],
         last_ping := dictSet [("D1", 5)] "D1" 999 },
       ⟨"id1", 3, 60, some "D1"⟩, [.send 3 .pong], false) :=
  (C9_ping_pong_heartbeat 999 (fun _ _ => .exn "") ⟨[], [("D1", 3)], [("D1", 5)]⟩
    ⟨"id1", 3, 60, some "D1"⟩ "D1" rfl (by decide) rfl).1

/-- C10: the devices registry and the last_ping heartbeat map always hold
the same key set — the consistency predicate is preserved by connection
accept, every receive-loop step, transport disconnect, point-to-point
delivery, command submission and the heartbeat sweep. -/
theorem C10_registry_heartbeat_agreement
    (now : Nat) (backend : String → String → BackendResp) (st : Pools)
    (c : ConnState) (frame : InFrame) (sendOk : Nat → Bool)
    (deviceId n cmd : String) (ws : Nat) (target : Target)
    (h : PoolsConsistent st) :
    PoolsConsistent (ws_device_accept now st deviceId ws).1 ∧
    PoolsConsistent (ws_device_step now backend st c frame).1 ∧
    PoolsConsistent (ws_device_disconnect st c).1 ∧
    PoolsConsistent (send_command_to_device sendOk st n cmd).1 ∧
    PoolsConsistent (receive_command sendOk st cmd target).1 ∧
    PoolsConsistent (monitor_pings_once now st).1 :=
  ⟨consistent_accept now st deviceId ws h,
   consistent_step now backend st c frame h,
   consistent_disconnect st c h,
   consistent_send_cmd sendOk st n cmd h,
   consistent_receive_command sendOk st cmd target h,
   consistent_sweep_aux now (dictKeys st.last_ping) st h⟩

/-- C10 witness: the agreement applied to a consistent concrete state with
one registered device, across all six operations. -/
theorem C10_witness :
    PoolsConsistent (ws_device_accept 0 ⟨[], [("D1", 1)], [("D1", 5)]⟩ "id7" 7).1 ∧
    PoolsConsistent (ws_device_step 0 (fun _ _ => .exn "")
      ⟨[], [("D1", 1)], [("D1", 5)]⟩ ⟨"id7", 7, 60, some "D1"⟩ .ping).1 ∧
    PoolsConsistent (ws_device_disconnect ⟨[], [("D1", 1)], [("D1", 5)]⟩
      ⟨"id7", 7, 60, some "D1"⟩).1 ∧
    PoolsConsistent (send_command_to_device (fun _ => false)
      ⟨[], [("D1", 1)], [("D1", 5)]⟩ "D1" "ON").1 ∧
    PoolsConsistent (receive_command (fun _ => false)
      ⟨[], [("D1", 1)], [("D1", 5)]⟩ "ON" (.list ["D1"])).1 ∧
    PoolsConsistent (monitor_pings_once 0 ⟨[], [("D1", 1)], [("D1", 5)]⟩).1 :=
  C10_registry_heartbeat_agreement 0 (fun _ _ => .exn "")
    ⟨[], [("D1", 1)], [("D1", 5)]⟩ ⟨"id7", 7, 60, some "D1"⟩ .ping
    (fun _ => false) "id7" "D1" "ON" 7 (.list ["D1"])
    (by
      intro k
      simp only [dictGet]
      by_cases hk : "D1" = k <;> simp [hk])

end IotServer
